import Mathlib

/-!
# Network Presence Monitor and Offline-Durable Sync Engine: shallow embedding

A shallow embedding of the attendance-tracker core (`part2.py`, `part3.py`):

* `ConnectionDatabase` with `add_event`, `get_unsynced_events`, `mark_as_synced`
  models the SQLite-backed local event store (`part3.py`, class
  `ConnectionDatabase`).  The table is modelled as the list of rows in storage
  (rowid) order together with the AUTOINCREMENT counter; a full-table `SELECT`
  returns rows in storage order.
* `WiFiMonitor` / `monitorStep` model one iteration of the body of
  `WiFiMonitor.monitor_wifi` (`part3.py`): the comparison of the freshly probed
  SSID against `last_ssid` and the resulting connect/disconnect event.  The
  disconnect guard `if self.connection_start_time:` is Python truthiness,
  under which both `None` and a start time of exactly `0.0` are falsy
  (`pyTruthy`).  Each call to `time.time()` is modelled as reading the next
  value of an abstract clock stream `clock : Nat -> Int` at the monitor's
  running call index `timeIdx`.  The human-readable start-time column (a `strftime`
  rendering, presentation-only) is not modelled; the `HH:MM:SS` duration
  rendering (`format_duration`) is modelled exactly.
* `processSample` models the dispatch of an emitted event: to
  `ApiClient.track_connection` when the app has an `api_client` attribute,
  otherwise to the offline store (`part3.py` lines 212-219 and 247-254).
* `sync_offline_events` models `WiFiMonitor.sync_offline_events` together with
  the success criterion of `ApiClient.track_connection` (`part2.py`): the
  per-event callback receives success exactly when the HTTP response has
  status 200 and a `success` body.
* `ApiClient_get_current_ssid` models `ApiClient.get_current_ssid`
  (`part2.py`): the platform-specific parsing of the probe output and the
  fallback to the configured target SSID.
-/

/-- One presence sample: the SSID observed by one probe of
`WiFiMonitor.get_current_ssid`, `none` when no network is associated or the
probe failed. -/
abbrev Sample := Option String

/-- The two event kinds produced by the monitor (`event_type` strings
`"connect"` / `"disconnect"` in the source). -/
inductive EventKind where
  | connect
  | disconnect
deriving Repr, DecidableEq

/-- The `event_type` string the source attaches to an event. -/
def eventTypeString : EventKind → String
  | EventKind.connect => "connect"
  | EventKind.disconnect => "disconnect"

/-- The in-memory payload dict built by `WiFiMonitor.monitor_wifi` for one
connect/disconnect event (`connection_data` / `disconnection_data`). -/
structure Event where
  kind : EventKind
  ssid : String
  ip_address : String
  mac_address : String
  computer_name : String
  timestamp : Int
  connection_start_time : Int
  connection_duration : Option Int
  connection_duration_formatted : Option String
deriving Repr, DecidableEq

/-- One row of the `connection_events` table. -/
structure EventRow where
  id : Nat
  event_type : String
  ssid : String
  email : String
  ip_address : String
  mac_address : String
  computer_name : String
  timestamp : Int
  connection_start_time : Int
  connection_duration : Option Int
  connection_duration_formatted : Option String
  synced : Bool
deriving Repr, DecidableEq

/-- The column values supplied by callers of `ConnectionDatabase.add_event`
(everything except the AUTOINCREMENT `id` and the defaulted `synced`). -/
structure EventData where
  event_type : String
  ssid : String
  email : String
  ip_address : String
  mac_address : String
  computer_name : String
  timestamp : Int
  connection_start_time : Int
  connection_duration : Option Int
  connection_duration_formatted : Option String
deriving Repr, DecidableEq

/-- The local SQLite store: rows in storage (rowid) order plus the
AUTOINCREMENT counter for the next `id`. -/
structure ConnectionDatabase where
  rows : List EventRow
  nextId : Nat
deriving Repr, DecidableEq

/-- A freshly initialized store (`_initialize_db` creates an empty table). -/
def ConnectionDatabase.empty : ConnectionDatabase :=
  { rows := [], nextId := 1 }

/-- `ConnectionDatabase.add_event`: INSERT the supplied columns; `id` is
assigned by AUTOINCREMENT and `synced` takes its schema default `0`.
Returns the new store and `cursor.lastrowid`. -/
def ConnectionDatabase.add_event (db : ConnectionDatabase) (e : EventData) :
    ConnectionDatabase × Nat :=
  let row : EventRow :=
    { id := db.nextId
      event_type := e.event_type
      ssid := e.ssid
      email := e.email
      ip_address := e.ip_address
      mac_address := e.mac_address
      computer_name := e.computer_name
      timestamp := e.timestamp
      connection_start_time := e.connection_start_time
      connection_duration := e.connection_duration
      connection_duration_formatted := e.connection_duration_formatted
      synced := false }
  ({ rows := db.rows ++ [row], nextId := db.nextId + 1 }, db.nextId)

/-- `ConnectionDatabase.get_unsynced_events`:
`SELECT * FROM connection_events WHERE synced = 0`, a full table scan
returning matching rows in storage order. -/
def ConnectionDatabase.get_unsynced_events (db : ConnectionDatabase) :
    List EventRow :=
  db.rows.filter (fun r => !r.synced)

/-- `ConnectionDatabase.mark_as_synced`:
`UPDATE connection_events SET synced = 1 WHERE id = ?`. -/
def ConnectionDatabase.mark_as_synced (db : ConnectionDatabase) (event_id : Nat) :
    ConnectionDatabase :=
  { db with
    rows := db.rows.map (fun r =>
      if r.id = event_id then { r with synced := true } else r) }

/-- Zero-padded two-digit rendering used by `format_duration`
(Python `f"{int(x):02d}"` for the non-negative values that occur there). -/
def pad2 (n : Int) : String :=
  if 0 ≤ n ∧ n < 10 then "0" ++ toString n else toString n

/-- `WiFiMonitor.format_duration`: seconds to `HH:MM:SS` via `divmod`
(Python floor division, `Int.fdiv`/`Int.fmod`). -/
def format_duration (seconds : Int) : String :=
  let hours := seconds.fdiv 3600
  let remainder := seconds.fmod 3600
  let minutes := remainder.fdiv 60
  let secs := remainder.fmod 60
  pad2 hours ++ ":" ++ pad2 minutes ++ ":" ++ pad2 secs

/-- Ambient context of one monitor cycle: the `time.time()` stream and the
device identity returned by `get_local_ip` / `app.get_mac_address` /
`app.get_computer_name`. -/
structure ProbeCtx where
  clock : Nat → Int
  ip_address : String
  mac_address : String
  computer_name : String

/-- The mutable fields of `WiFiMonitor` that the monitoring loop reads and
writes, plus the running count `timeIdx` of `time.time()` calls made. -/
structure WiFiMonitor where
  target_ssid : String
  current_ssid : Sample
  last_ssid : Sample
  is_connected_to_target : Bool
  connection_start_time : Option Int
  timeIdx : Nat
deriving Repr, DecidableEq

/-- `WiFiMonitor.__init__`: `current_ssid = None`, `last_ssid = None`,
`is_connected_to_target = False`, `connection_start_time = None`. -/
def initialMonitor (target : String) : WiFiMonitor :=
  { target_ssid := target
    current_ssid := none
    last_ssid := none
    is_connected_to_target := false
    connection_start_time := none
    timeIdx := 0 }

/-- Python truthiness of the optional `connection_start_time` in
`if self.connection_start_time:` (`part3.py` line 227): `None` and a
timestamp of exactly `0.0` are both falsy. -/
def pyTruthy : Option Int → Bool
  | none => false
  | some x => x != 0

/-- One authenticated iteration of the body of `WiFiMonitor.monitor_wifi`
(`part3.py` lines 186-256): record the sample as `current_ssid`, compare it
with `last_ssid`, and on a change emit a connect event (new sample equals the
target) or a disconnect event (old sample equalled the target and the
recorded session start time is truthy — `if self.connection_start_time:`
is Python truthiness, so both `None` and a start time of exactly `0.0`
suppress the disconnect event), updating `last_ssid` only when the sample
changed.  The connect branch reads the clock twice (`connection_start_time`,
then `timestamp`); the emitting disconnect branch likewise (duration
computation, then `timestamp`). -/
def monitorStep (ctx : ProbeCtx) (m : WiFiMonitor) (sample : Sample) :
    WiFiMonitor × Option Event :=
  let m := { m with current_ssid := sample }
  if sample ≠ m.last_ssid then
    if sample = some m.target_ssid then
      let start := ctx.clock m.timeIdx
      let ev : Event :=
        { kind := EventKind.connect
          ssid := m.target_ssid
          ip_address := ctx.ip_address
          mac_address := ctx.mac_address
          computer_name := ctx.computer_name
          timestamp := ctx.clock (m.timeIdx + 1)
          connection_start_time := start
          connection_duration := none
          connection_duration_formatted := none }
      ({ m with
          last_ssid := sample
          is_connected_to_target := true
          connection_start_time := some start
          timeIdx := m.timeIdx + 2 }, some ev)
    else if m.last_ssid = some m.target_ssid then
      match m.connection_start_time with
      | some start =>
          if start ≠ 0 then
            let duration := ctx.clock m.timeIdx - start
            let ev : Event :=
              { kind := EventKind.disconnect
                ssid := m.target_ssid
                ip_address := ctx.ip_address
                mac_address := ctx.mac_address
                computer_name := ctx.computer_name
                timestamp := ctx.clock (m.timeIdx + 1)
                connection_start_time := start
                connection_duration := some duration
                connection_duration_formatted := some (format_duration duration) }
            ({ m with
                last_ssid := sample
                is_connected_to_target := false
                timeIdx := m.timeIdx + 2 }, some ev)
          else
            ({ m with last_ssid := sample, is_connected_to_target := false }, none)
      | none =>
          ({ m with last_ssid := sample, is_connected_to_target := false }, none)
    else
      ({ m with last_ssid := sample }, none)
  else
    (m, none)

/-- The monitor state after folding a sequence of samples through
`monitorStep`. -/
def monitorFold (ctx : ProbeCtx) (m : WiFiMonitor) (samples : List Sample) :
    WiFiMonitor :=
  samples.foldl (fun m s => (monitorStep ctx m s).1) m

/-- The per-sample event output of the monitor loop over a sequence of
samples: position `i` holds the event (if any) emitted while processing
sample `i`. -/
def monitorRun (ctx : ProbeCtx) (m : WiFiMonitor) : List Sample → List (Option Event)
  | [] => []
  | s :: rest =>
      (monitorStep ctx m s).2 :: monitorRun ctx (monitorStep ctx m s).1 rest

/-- The sample the monitor compares sample `i` against: the initial
`last_ssid` for `i = 0`, otherwise sample `i - 1`. -/
def prevSampleFrom (init : Sample) (samples : List Sample) (i : Nat) : Sample :=
  if i = 0 then init else samples.getD (i - 1) none

/-- The application-level state the monitor and sync code touch: whether an
`api_client` attribute exists, its bearer token, the user email, the monitor,
the offline store, and the log of events handed to
`ApiClient.track_connection` by the monitor loop. -/
structure AppState where
  has_api_client : Bool
  access_token : Option String
  user_email : Option String
  monitor : WiFiMonitor
  offline_db : ConnectionDatabase
  api_calls : List Event
deriving Repr, DecidableEq

/-- The row columns the offline branch stores for an event
(`event_type` and `email` are added to the payload dict before
`add_event`; `email` is `self.app.user_email or ""`). -/
def eventToData (ev : Event) (email : String) : EventData :=
  { event_type := eventTypeString ev.kind
    ssid := ev.ssid
    email := email
    ip_address := ev.ip_address
    mac_address := ev.mac_address
    computer_name := ev.computer_name
    timestamp := ev.timestamp
    connection_start_time := ev.connection_start_time
    connection_duration := ev.connection_duration
    connection_duration_formatted := ev.connection_duration_formatted }

/-- Dispatch of an emitted event (`part3.py` lines 212-219 / 247-254):
`if hasattr(self.app, 'api_client')` hand it to
`ApiClient.track_connection`, else store it in the offline database. -/
def dispatchEvent (app : AppState) (ev : Event) : AppState :=
  if app.has_api_client then
    { app with api_calls := app.api_calls ++ [ev] }
  else
    { app with
      offline_db :=
        (app.offline_db.add_event (eventToData ev (app.user_email.getD ""))).1 }

/-- One sample's worth of the monitor loop at the application level:
run `monitorStep`, then dispatch the emitted event, if any. -/
def processSample (ctx : ProbeCtx) (app : AppState) (sample : Sample) : AppState :=
  let step := monitorStep ctx app.monitor sample
  let app' := { app with monitor := step.1 }
  match step.2 with
  | none => app'
  | some ev => dispatchEvent app' ev

/-- Outcome of one `ApiClient.track_connection` POST for one event: a
network error (`requests.RequestException`) or an HTTP response with a
status code and the truthiness of the `success` field of its body. -/
inductive ApiResult where
  | netError
  | response (status : Nat) (success : Bool)
deriving Repr, DecidableEq

/-- Whether `ApiClient.track_connection` invokes its callback with
`success=True`: no exception, `response.status_code == 200`, and
`data.get("success")` truthy (`part2.py` lines 270-287). -/
def trackSucceeds : ApiResult → Bool
  | ApiResult.netError => false
  | ApiResult.response status success => status == 200 && success

/-- One iteration of the loop in `WiFiMonitor.sync_offline_events`: submit
the event (recording its id as sent); the callback marks it synced exactly
when the delivery succeeded. -/
def syncStep (remote : Nat → ApiResult) (st : ConnectionDatabase × List Nat)
    (e : EventRow) : ConnectionDatabase × List Nat :=
  if trackSucceeds (remote e.id) then
    (st.1.mark_as_synced e.id, st.2 ++ [e.id])
  else
    (st.1, st.2 ++ [e.id])

/-- `WiFiMonitor.sync_offline_events` (`part3.py` lines 264-288): do nothing
without an `api_client` attribute or without an access token; otherwise fetch
the unsynced events once and submit every one of them in order, marking each
synced exactly when its own delivery succeeds.  Also returns the list of
event ids submitted during the cycle. -/
def sync_offline_events (remote : Nat → ApiResult) (app : AppState) :
    AppState × List Nat :=
  if app.has_api_client = false ∨ app.access_token = none then
    (app, [])
  else
    let events := app.offline_db.get_unsynced_events
    let folded := events.foldl (syncStep remote) (app.offline_db, [])
    ({ app with offline_db := folded.1 }, folded.2)

/-- The three platform branches of `get_current_ssid`. -/
inductive Platform where
  | windows
  | darwin
  | linux
deriving Repr, DecidableEq

/-- Whether one output line is selected by the platform-specific scan of
`ApiClient.get_current_ssid`: Windows takes a line containing `"SSID"` but
not `"BSSID"`, macOS a line containing `" SSID:"`, Linux a line starting
with `"yes:"`. -/
def lineMatches : Platform → String → Bool
  | Platform.windows, line =>
      line.containsSubstr "SSID" && !line.containsSubstr "BSSID"
  | Platform.darwin, line => line.containsSubstr " SSID:"
  | Platform.linux, line => line.startsWith "yes:"

/-- `line.split(":", 1)[1].strip()`: everything after the first colon,
stripped.  On a matched line containing no colon CPython would raise an
uncaught `IndexError`; this total model returns `""` (hence `"Unknown"`)
there instead.  That input is unreachable in the theorems below, which
only concern the failed-probe and no-matching-line paths. -/
def afterColon (line : String) : String :=
  (String.intercalate ":" ((line.splitOn ":").drop 1)).trim

/-- `ApiClient.get_current_ssid` (`part2.py` lines 75-109): scan the probe
output (`none` models a caught `SubprocessError`/`FileNotFoundError`/
`OSError`) for the first matching line; an empty extracted SSID yields
`"Unknown"`; if the probe failed or no line matched, fall through to
`return self.app.config.get("target_ssid", ...)`, the configured target. -/
def ApiClient_get_current_ssid (platform : Platform) (target_ssid : String)
    (probe : Option (List String)) : String :=
  match probe with
  | none => target_ssid
  | some lines =>
      match lines.find? (lineMatches platform) with
      | none => target_ssid
      | some line =>
          let ssid := afterColon line
          if ssid = "" then "Unknown" else ssid

/-- The JSON body `ApiClient.login` sends to `/api/desktop/login`. -/
structure LoginPayload where
  email : String
  password : String
  macAddress : String
  ssid : String
deriving Repr, DecidableEq

/-- The payload construction in `ApiClient.login` (`part2.py` lines 111-126):
the reported `ssid` is whatever `ApiClient.get_current_ssid` returned. -/
def ApiClient_login_payload (platform : Platform) (target_ssid : String)
    (probe : Option (List String)) (email password macAddress : String) :
    LoginPayload :=
  { email := email
    password := password
    macAddress := macAddress
    ssid := ApiClient_get_current_ssid platform target_ssid probe }


/-- Whenever `last_ssid` equals the target, a truthy (recorded and
non-zero) session start time is present.  This holds initially and is
preserved by every step whenever the clock never reads exactly zero —
which `time.time()` (positive seconds since the epoch) never does. -/
def StartInv (m : WiFiMonitor) : Prop :=
  m.last_ssid = some m.target_ssid → pyTruthy m.connection_start_time = true

/-- The `time.time()` stream never goes backwards. -/
def ClockMono (clock : Nat → Int) : Prop :=
  ∀ i j : Nat, i ≤ j → clock i ≤ clock j

/-- Any recorded session start time is no later than the monitor's next
clock reading.  Holds initially and is preserved by every step when the
clock is monotone. -/
def DurInv (ctx : ProbeCtx) (m : WiFiMonitor) : Prop :=
  ∀ st, m.connection_start_time = some st → st ≤ ctx.clock m.timeIdx

/-- The effect of one sync cycle on one row: marked synced when some
submitted event shares its id and that event's delivery succeeded. -/
def markIf (remote : Nat → ApiResult) (evs : List EventRow) (r : EventRow) :
    EventRow :=
  if evs.any (fun e => e.id == r.id && trackSucceeds (remote e.id)) then
    { r with synced := true }
  else r

/-! ## Concrete fixtures for witnesses and counterexamples -/

/-- A concrete probe context: the clock reads 0, 1, 2, ... -/
def cexCtx : ProbeCtx :=
  { clock := fun n => (n : Int)
    ip_address := "10.0.0.5"
    mac_address := "aa:bb:cc:dd:ee:ff"
    computer_name := "pc1" }

/-- A concrete probe context whose clock reads 10, 11, 12, ... — like
`time.time()`, bounded away from zero, so recorded session start times are
always truthy. -/
def runCtx : ProbeCtx :=
  { clock := fun n => (n : Int) + 10
    ip_address := "10.0.0.5"
    mac_address := "aa:bb:cc:dd:ee:ff"
    computer_name := "pc1" }

/-- An app that has an `api_client` attribute and a token, with a fresh
monitor and an empty offline store. -/
def c2App : AppState :=
  { has_api_client := true
    access_token := some "tok"
    user_email := some "user"
    monitor := initialMonitor "Target"
    offline_db := ConnectionDatabase.empty
    api_calls := [] }

/-- The connect event `monitorStep` emits from a fresh monitor under
`cexCtx` when the first sample is the target. -/
def c2Event : Event :=
  { kind := EventKind.connect
    ssid := "Target"
    ip_address := "10.0.0.5"
    mac_address := "aa:bb:cc:dd:ee:ff"
    computer_name := "pc1"
    timestamp := 1
    connection_start_time := 0
    connection_duration := none
    connection_duration_formatted := none }

/-- The disconnect event emitted while processing `[some "Target", none]`
from a fresh monitor under `runCtx` (clock 10, 11, 12, 13): duration
`12 - 10 = 2`, timestamp `13`. -/
def c6Event : Event :=
  { kind := EventKind.disconnect
    ssid := "Target"
    ip_address := "10.0.0.5"
    mac_address := "aa:bb:cc:dd:ee:ff"
    computer_name := "pc1"
    timestamp := 13
    connection_start_time := 10
    connection_duration := some 2
    connection_duration_formatted := some (format_duration 2) }

/-- Three unsynced stored events with ids 1, 2, 3. -/
def row1 : EventRow :=
  { id := 1, event_type := "connect", ssid := "Target", email := "user"
    ip_address := "10.0.0.5", mac_address := "aa:bb:cc:dd:ee:ff"
    computer_name := "pc1", timestamp := 10, connection_start_time := 10
    connection_duration := none, connection_duration_formatted := none
    synced := false }

def row2 : EventRow :=
  { id := 2, event_type := "disconnect", ssid := "Target", email := "user"
    ip_address := "10.0.0.5", mac_address := "aa:bb:cc:dd:ee:ff"
    computer_name := "pc1", timestamp := 20, connection_start_time := 10
    connection_duration := some 10
    connection_duration_formatted := some "00:00:10", synced := false }

def row3 : EventRow :=
  { id := 3, event_type := "connect", ssid := "Target", email := "user"
    ip_address := "10.0.0.5", mac_address := "aa:bb:cc:dd:ee:ff"
    computer_name := "pc1", timestamp := 30, connection_start_time := 30
    connection_duration := none, connection_duration_formatted := none
    synced := false }

/-- A store holding the three unsynced events. -/
def db3 : ConnectionDatabase :=
  { rows := [row1, row2, row3], nextId := 4 }

/-- An authenticated app whose offline store holds the three events. -/
def app3 : AppState :=
  { has_api_client := true
    access_token := some "tok"
    user_email := some "user"
    monitor := initialMonitor "Target"
    offline_db := db3
    api_calls := [] }

/-- A remote that acknowledges every event except id 2, which gets a 500
with a non-success body. -/
def remote3 : Nat → ApiResult :=
  fun id => if id = 2 then ApiResult.response 500 false
            else ApiResult.response 200 true

/-! ## Basic facts about one monitor step -/

theorem monitorStep_target (ctx : ProbeCtx) (m : WiFiMonitor) (s : Sample) :
    ((monitorStep ctx m s).1).target_ssid = m.target_ssid := by
  by_cases h1 : s = m.last_ssid
  · subst h1
    simp [monitorStep]
  · by_cases h2 : s = some m.target_ssid
    · subst h2
      simp [monitorStep, h1]
    · by_cases h3 : m.last_ssid = some m.target_ssid
      · cases hst : m.connection_start_time with
        | none => simp [monitorStep, h1, h2, h3, hst]
        | some start =>
            by_cases hz : start = 0 <;>
              simp [monitorStep, h1, h2, h3, hst, hz]
      · simp [monitorStep, h1, h2, h3]

theorem monitorStep_last (ctx : ProbeCtx) (m : WiFiMonitor) (s : Sample) :
    ((monitorStep ctx m s).1).last_ssid = s := by
  by_cases h1 : s = m.last_ssid
  · subst h1
    simp [monitorStep]
  · by_cases h2 : s = some m.target_ssid
    · subst h2
      simp [monitorStep, h1]
    · by_cases h3 : m.last_ssid = some m.target_ssid
      · cases hst : m.connection_start_time with
        | none => simp [monitorStep, h1, h2, h3, hst]
        | some start =>
            by_cases hz : start = 0 <;>
              simp [monitorStep, h1, h2, h3, hst, hz]
      · simp [monitorStep, h1, h2, h3]

theorem monitorStep_current (ctx : ProbeCtx) (m : WiFiMonitor) (s : Sample) :
    ((monitorStep ctx m s).1).current_ssid = s := by
  by_cases h1 : s = m.last_ssid
  · subst h1
    simp [monitorStep]
  · by_cases h2 : s = some m.target_ssid
    · subst h2
      simp [monitorStep, h1]
    · by_cases h3 : m.last_ssid = some m.target_ssid
      · cases hst : m.connection_start_time with
        | none => simp [monitorStep, h1, h2, h3, hst]
        | some start =>
            by_cases hz : start = 0 <;>
              simp [monitorStep, h1, h2, h3, hst, hz]
      · simp [monitorStep, h1, h2, h3]

/-- Processing a sample identical to the one just processed emits no event
and leaves the monitor state untouched. -/
theorem monitorStep_fix (ctx : ProbeCtx) (m : WiFiMonitor) (s : Sample) :
    monitorStep ctx ((monitorStep ctx m s).1) s = ((monitorStep ctx m s).1, none) := by
  have hl := monitorStep_last ctx m s
  have hc := monitorStep_current ctx m s
  obtain ⟨m1, hm1⟩ : ∃ m1, (monitorStep ctx m s).1 = m1 := ⟨_, rfl⟩
  rw [hm1] at hl hc ⊢
  obtain ⟨t, c, l, b, st, ti⟩ := m1
  simp only [WiFiMonitor.last_ssid] at hl
  simp only [WiFiMonitor.current_ssid] at hc
  subst hl
  subst hc
  simp [monitorStep]


theorem startInv_initial (t : String) : StartInv (initialMonitor t) := by
  intro h
  simp [initialMonitor] at h

theorem monitorStep_startInv (ctx : ProbeCtx) (m : WiFiMonitor) (s : Sample)
    (hclock : ∀ n, ctx.clock n ≠ 0) (h : StartInv m) :
    StartInv ((monitorStep ctx m s).1) := by
  unfold StartInv
  by_cases h1 : s = m.last_ssid
  · subst h1
    simpa [monitorStep] using h
  · by_cases h2 : s = some m.target_ssid
    · subst h2
      simp [monitorStep, h1, pyTruthy, hclock m.timeIdx]
    · by_cases h3 : m.last_ssid = some m.target_ssid
      · cases hst : m.connection_start_time with
        | none => simp [monitorStep, h1, h2, h3, hst]
        | some start =>
            by_cases hz : start = 0 <;>
              simp [monitorStep, h1, h2, h3, hst, hz]
      · simp [monitorStep, h1, h2, h3]

/-- The step emits a connect event exactly when the new sample is the target
and the previous sample was not. -/
theorem monitorStep_emits_connect (ctx : ProbeCtx) (m : WiFiMonitor) (s : Sample) :
    (∃ ev, (monitorStep ctx m s).2 = some ev ∧ ev.kind = EventKind.connect) ↔
      (s = some m.target_ssid ∧ m.last_ssid ≠ some m.target_ssid) := by
  by_cases h1 : s = m.last_ssid
  · subst h1
    simp [monitorStep]
  · by_cases h2 : s = some m.target_ssid
    · subst h2
      simp [monitorStep, h1]
      exact fun h => h1 h.symm
    · by_cases h3 : m.last_ssid = some m.target_ssid
      · cases hst : m.connection_start_time with
        | none => simp [monitorStep, h1, h2, h3, hst]
        | some start =>
            by_cases hz : start = 0 <;>
              simp [monitorStep, h1, h2, h3, hst, hz]
      · simp [monitorStep, h1, h2, h3]

/-- Under `StartInv`, the step emits a disconnect event exactly when the
previous sample was the target and the new sample is not. -/
theorem monitorStep_emits_disconnect (ctx : ProbeCtx) (m : WiFiMonitor) (s : Sample)
    (hinv : StartInv m) :
    (∃ ev, (monitorStep ctx m s).2 = some ev ∧ ev.kind = EventKind.disconnect) ↔
      (s ≠ some m.target_ssid ∧ m.last_ssid = some m.target_ssid) := by
  by_cases h1 : s = m.last_ssid
  · subst h1
    simp [monitorStep]
  · by_cases h2 : s = some m.target_ssid
    · subst h2
      simp [monitorStep, h1]
    · by_cases h3 : m.last_ssid = some m.target_ssid
      · cases hst : m.connection_start_time with
        | none =>
            have htr := hinv h3
            rw [hst] at htr
            simp [pyTruthy] at htr
        | some start =>
            have hz : start ≠ 0 := by
              have htr := hinv h3
              rw [hst] at htr
              simpa [pyTruthy] using htr
            simp [monitorStep, h1, h2, h3, hst, hz]
      · simp [monitorStep, h1, h2, h3]

/-! ## The monitor loop over a sequence of samples -/

theorem prevSampleFrom_cons (init s : Sample) (rest : List Sample) (i : Nat) :
    prevSampleFrom init (s :: rest) (i + 1) = prevSampleFrom s rest i := by
  unfold prevSampleFrom
  cases i with
  | zero => simp
  | succ j => simp

/-- Position `i` of the run holds a connect event exactly when sample `i`
is the target and the previous sample (the initial `last_ssid` at `i = 0`)
is not. -/
theorem monitorRun_connect_iff (ctx : ProbeCtx) (samples : List Sample) :
    ∀ (m : WiFiMonitor) (i : Nat),
      ((∃ ev, (monitorRun ctx m samples)[i]? = some (some ev) ∧
          ev.kind = EventKind.connect) ↔
        (samples[i]? = some (some m.target_ssid) ∧
          prevSampleFrom m.last_ssid samples i ≠ some m.target_ssid)) := by
  induction samples with
  | nil =>
      intro m i
      simp [monitorRun]
  | cons s rest ih =>
      intro m i
      cases i with
      | zero =>
          have h := monitorStep_emits_connect ctx m s
          simpa [monitorRun, prevSampleFrom] using h
      | succ i =>
          have ih' := ih ((monitorStep ctx m s).1) i
          rw [monitorStep_target, monitorStep_last] at ih'
          simpa [monitorRun, prevSampleFrom_cons] using ih'

/-- Position `i` of the run holds a disconnect event exactly when the
previous sample is the target and sample `i` is not. -/
theorem monitorRun_disconnect_iff (ctx : ProbeCtx)
    (hclock : ∀ n, ctx.clock n ≠ 0) (samples : List Sample) :
    ∀ (m : WiFiMonitor), StartInv m → ∀ (i : Nat),
      ((∃ ev, (monitorRun ctx m samples)[i]? = some (some ev) ∧
          ev.kind = EventKind.disconnect) ↔
        ((∃ s, samples[i]? = some s ∧ s ≠ some m.target_ssid) ∧
          prevSampleFrom m.last_ssid samples i = some m.target_ssid)) := by
  induction samples with
  | nil =>
      intro m hinv i
      simp [monitorRun]
  | cons s rest ih =>
      intro m hinv i
      cases i with
      | zero =>
          have h := monitorStep_emits_disconnect ctx m s hinv
          simpa [monitorRun, prevSampleFrom] using h
      | succ i =>
          have ih' := ih ((monitorStep ctx m s).1)
            (monitorStep_startInv ctx m s hclock hinv) i
          rw [monitorStep_target, monitorStep_last] at ih'
          simpa [monitorRun, prevSampleFrom_cons] using ih'

theorem monitorRun_getElem (ctx : ProbeCtx) (samples : List Sample) :
    ∀ (m : WiFiMonitor) (i : Nat),
      (monitorRun ctx m samples)[i]? =
        samples[i]?.map
          (fun s => (monitorStep ctx (monitorFold ctx m (samples.take i)) s).2) := by
  induction samples with
  | nil =>
      intro m i
      simp [monitorRun]
  | cons s rest ih =>
      intro m i
      cases i with
      | zero => simp [monitorRun, monitorFold]
      | succ i =>
          simp only [monitorRun, List.getElem?_cons_succ, List.take_succ_cons]
          rw [ih]
          rfl

theorem monitorFold_take_succ (ctx : ProbeCtx) (samples : List Sample)
    (m : WiFiMonitor) (i : Nat) (h : i < samples.length) :
    monitorFold ctx m (samples.take (i + 1)) =
      (monitorStep ctx (monitorFold ctx m (samples.take i)) samples[i]).1 := by
  rw [List.take_succ, List.getElem?_eq_getElem h]
  show monitorFold ctx m (samples.take i ++ [samples[i]]) = _
  unfold monitorFold
  rw [List.foldl_append]
  rfl

/-- Two identical consecutive samples: the second emits no event and leaves
the folded monitor state unchanged. -/
theorem monitorRun_stutter (ctx : ProbeCtx) (samples : List Sample)
    (m : WiFiMonitor) (i : Nat) (s : Sample)
    (h1 : samples[i]? = some s) (h2 : samples[i + 1]? = some s) :
    (monitorRun ctx m samples)[i + 1]? = some none ∧
      monitorFold ctx m (samples.take (i + 2)) =
        monitorFold ctx m (samples.take (i + 1)) := by
  obtain ⟨hlen1, hs1⟩ := List.getElem?_eq_some.mp h1
  obtain ⟨hlen2, hs2⟩ := List.getElem?_eq_some.mp h2
  have hfold1 : monitorFold ctx m (samples.take (i + 1)) =
      (monitorStep ctx (monitorFold ctx m (samples.take i)) s).1 := by
    rw [monitorFold_take_succ ctx samples m i hlen1, hs1]
  have hfold2 : monitorFold ctx m (samples.take (i + 2)) =
      (monitorStep ctx (monitorFold ctx m (samples.take (i + 1))) s).1 := by
    rw [monitorFold_take_succ ctx samples m (i + 1) hlen2, hs2]
  have hfix := monitorStep_fix ctx (monitorFold ctx m (samples.take i)) s
  constructor
  · rw [monitorRun_getElem, h2, Option.map_some', hfold1, hfix]
  · rw [hfold2, hfold1, hfix]

/-! ## Durations under a monotone clock -/



theorem durInv_initial (ctx : ProbeCtx) (t : String) :
    DurInv ctx (initialMonitor t) := by
  intro st h
  simp [initialMonitor] at h

theorem monitorStep_durInv (ctx : ProbeCtx) (m : WiFiMonitor) (s : Sample)
    (hmono : ClockMono ctx.clock) (h : DurInv ctx m) :
    DurInv ctx ((monitorStep ctx m s).1) := by
  unfold DurInv
  by_cases h1 : s = m.last_ssid
  · subst h1
    simpa [monitorStep] using h
  · by_cases h2 : s = some m.target_ssid
    · subst h2
      intro st hst
      simp [monitorStep, h1] at hst ⊢
      rw [← hst]
      exact hmono _ _ (Nat.le_add_right _ 2)
    · by_cases h3 : m.last_ssid = some m.target_ssid
      · cases hst0 : m.connection_start_time with
        | none =>
            intro st hst
            simp [monitorStep, h1, h2, h3, hst0] at hst
        | some start =>
            by_cases hz : start = 0
            · intro st hst
              simp [monitorStep, h1, h2, h3, hst0, hz] at hst ⊢
              rw [← hst]
              have hb := h start hst0
              rw [hz] at hb
              exact hb
            · intro st hst
              simp [monitorStep, h1, h2, h3, hst0, hz] at hst ⊢
              rw [← hst]
              exact le_trans (h start hst0) (hmono _ _ (Nat.le_add_right _ 2))
      · intro st hst
        simp [monitorStep, h1, h2, h3] at hst ⊢
        exact h st hst

/-- Every disconnect event the run emits carries a duration equal to the
clock reading taken at the transition minus the recorded session start; the
event's timestamp is the subsequent clock reading, so the duration is
non-negative and bounded by `timestamp - session_start`. -/
theorem monitorRun_disconnect_duration (ctx : ProbeCtx)
    (hmono : ClockMono ctx.clock) (samples : List Sample) :
    ∀ (m : WiFiMonitor), DurInv ctx m → ∀ (i : Nat) (ev : Event),
      (monitorRun ctx m samples)[i]? = some (some ev) →
      ev.kind = EventKind.disconnect →
      ∃ d j, ev.connection_duration = some d ∧
        d = ctx.clock j - ev.connection_start_time ∧
        ev.timestamp = ctx.clock (j + 1) ∧
        0 ≤ d ∧ ev.connection_start_time + d ≤ ev.timestamp := by
  induction samples with
  | nil =>
      intro m _ i ev hev _
      simp [monitorRun] at hev
  | cons s rest ih =>
      intro m hinv i ev hev hk
      cases i with
      | succ i =>
          exact ih ((monitorStep ctx m s).1)
            (monitorStep_durInv ctx m s hmono hinv) i ev
            (by simpa [monitorRun] using hev) hk
      | zero =>
          have hev' : (monitorStep ctx m s).2 = some ev := by
            simpa [monitorRun] using hev
          by_cases h1 : s = m.last_ssid
          · subst h1
            simp [monitorStep] at hev'
          · by_cases h2 : s = some m.target_ssid
            · subst h2
              simp [monitorStep, h1] at hev'
              rw [← hev'] at hk
              simp at hk
            · by_cases h3 : m.last_ssid = some m.target_ssid
              · cases hst0 : m.connection_start_time with
                | none => simp [monitorStep, h1, h2, h3, hst0] at hev'
                | some start =>
                    by_cases hz : start = 0
                    · simp [monitorStep, h1, h2, h3, hst0, hz] at hev'
                    simp [monitorStep, h1, h2, h3, hst0, hz] at hev'
                    subst hev'
                    refine ⟨ctx.clock m.timeIdx - start, m.timeIdx, rfl, rfl, rfl, ?_, ?_⟩
                    · show (0 : Int) ≤ ctx.clock m.timeIdx - start
                      have := hinv start hst0
                      omega
                    · show start + (ctx.clock m.timeIdx - start) ≤ ctx.clock (m.timeIdx + 1)
                      have h5 := hmono m.timeIdx (m.timeIdx + 1) (Nat.le_succ _)
                      omega
              · simp [monitorStep, h1, h2, h3] at hev'

/-! ## Store lemmas -/

theorem mark_as_synced_getElem (db : ConnectionDatabase) (i : Nat)
    (k : Nat) (r : EventRow) (hk : db.rows[k]? = some r) :
    (db.mark_as_synced i).rows[k]? =
      some (if r.id = i then { r with synced := true } else r) := by
  simp [ConnectionDatabase.mark_as_synced, List.getElem?_map, hk]

theorem mark_as_synced_length (db : ConnectionDatabase) (i : Nat) :
    (db.mark_as_synced i).rows.length = db.rows.length := by
  simp [ConnectionDatabase.mark_as_synced]

theorem mark_as_synced_nextId (db : ConnectionDatabase) (i : Nat) :
    (db.mark_as_synced i).nextId = db.nextId := rfl

theorem mark_as_synced_idem (db : ConnectionDatabase) (i : Nat) :
    (db.mark_as_synced i).mark_as_synced i = db.mark_as_synced i := by
  unfold ConnectionDatabase.mark_as_synced
  simp only [List.map_map]
  congr 1
  refine List.map_congr_left (fun r _ => ?_)
  by_cases hid : r.id = i <;> simp [Function.comp, hid]

theorem mark_as_synced_noop (db : ConnectionDatabase) (i : Nat)
    (h : ∀ r ∈ db.rows, r.id ≠ i) :
    db.mark_as_synced i = db := by
  unfold ConnectionDatabase.mark_as_synced
  have hrows : db.rows.map
      (fun r => if r.id = i then { r with synced := true } else r) = db.rows := by
    rw [List.map_congr_left (fun r hr => if_neg (h r hr)), List.map_id']
  rw [hrows]

/-! ## Sync-cycle lemmas -/


theorem markIf_cons_succ (remote : Nat → ApiResult) (e : EventRow)
    (evs : List EventRow) (r : EventRow)
    (hsucc : trackSucceeds (remote e.id) = true) :
    markIf remote (e :: evs) r =
      markIf remote evs (if r.id = e.id then { r with synced := true } else r) := by
  by_cases hid : r.id = e.id
  · by_cases hany :
      evs.any (fun e2 => e2.id == r.id && trackSucceeds (remote e2.id)) = true
    · simp [markIf, hid, hsucc, hany]
    · simp [markIf, hid, hsucc, hany]
  · have hid' : ¬e.id = r.id := fun h => hid h.symm
    simp [markIf, hid, hid']

theorem markIf_cons_fail (remote : Nat → ApiResult) (e : EventRow)
    (evs : List EventRow) (r : EventRow)
    (hsucc : trackSucceeds (remote e.id) = false) :
    markIf remote (e :: evs) r = markIf remote evs r := by
  by_cases hid : r.id = e.id <;> simp [markIf, hid, hsucc]

/-- Closed form of the submission loop of `sync_offline_events`: every event
of the fetched batch is submitted, and each row ends up marked according to
its own delivery outcome. -/
theorem sync_foldl (remote : Nat → ApiResult) (evs : List EventRow) :
    ∀ (db : ConnectionDatabase) (acc : List Nat),
      evs.foldl (syncStep remote) (db, acc) =
        ({ rows := db.rows.map (markIf remote evs), nextId := db.nextId },
          acc ++ evs.map (fun e => e.id)) := by
  induction evs with
  | nil =>
      intro db acc
      have hrows : db.rows.map (markIf remote []) = db.rows := by
        have h0 : ∀ r ∈ db.rows, markIf remote [] r = id r :=
          fun r _ => by simp [markIf, id]
        rw [List.map_congr_left h0, List.map_id]
      rw [List.foldl_nil, hrows]
      simp
  | cons e evs ih =>
      intro db acc
      rw [List.foldl_cons]
      by_cases hsucc : trackSucceeds (remote e.id) = true
      · have hstep : syncStep remote (db, acc) e =
            (db.mark_as_synced e.id, acc ++ [e.id]) := by
          simp [syncStep, hsucc]
        rw [hstep, ih]
        refine Prod.ext ?_ ?_
        · show ({ rows := _, nextId := _ } : ConnectionDatabase) = _
          simp only [ConnectionDatabase.mark_as_synced, List.map_map]
          congr 1
          refine List.map_congr_left (fun r _ => ?_)
          simp only [Function.comp_apply]
          exact (markIf_cons_succ remote e evs r hsucc).symm
        · simp
      · have hsucc' : trackSucceeds (remote e.id) = false := by
          simpa using hsucc
        have hstep : syncStep remote (db, acc) e = (db, acc ++ [e.id]) := by
          simp [syncStep, hsucc']
        rw [hstep, ih]
        refine Prod.ext ?_ ?_
        · show ({ rows := _, nextId := _ } : ConnectionDatabase) = _
          congr 1
          exact List.map_congr_left
            (fun r _ => (markIf_cons_fail remote e evs r hsucc').symm)
        · simp

theorem sync_offline_events_skip (remote : Nat → ApiResult) (app : AppState)
    (h : app.has_api_client = false ∨ app.access_token = none) :
    sync_offline_events remote app = (app, []) := by
  unfold sync_offline_events
  rw [if_pos h]

theorem sync_offline_events_eq (remote : Nat → ApiResult) (app : AppState)
    (h1 : app.has_api_client = true) (h2 : app.access_token ≠ none) :
    sync_offline_events remote app =
      ({ app with offline_db :=
          { rows := app.offline_db.rows.map
              (markIf remote app.offline_db.get_unsynced_events),
            nextId := app.offline_db.nextId } },
        app.offline_db.get_unsynced_events.map (fun e => e.id)) := by
  unfold sync_offline_events
  rw [if_neg (by simp [h1, h2])]
  show ({ app with offline_db :=
      (List.foldl (syncStep remote) (app.offline_db, [])
        app.offline_db.get_unsynced_events).1 },
    (List.foldl (syncStep remote) (app.offline_db, [])
      app.offline_db.get_unsynced_events).2) = _
  rw [sync_foldl]
  simp

/-- With pairwise-distinct ids, a row is marked by the cycle exactly when it
was unsynced and its own delivery succeeded. -/
theorem markIf_unsynced (remote : Nat → ApiResult) (db : ConnectionDatabase)
    (hnd : (db.rows.map (fun r => r.id)).Nodup) (r : EventRow) (hr : r ∈ db.rows) :
    markIf remote db.get_unsynced_events r =
      if r.synced = false ∧ trackSucceeds (remote r.id) = true then
        { r with synced := true }
      else r := by
  unfold markIf
  by_cases hc : r.synced = false ∧ trackSucceeds (remote r.id) = true
  · rw [if_pos hc, if_pos]
    rw [List.any_eq_true]
    refine ⟨r, ?_, ?_⟩
    · simp [ConnectionDatabase.get_unsynced_events, hr, hc.1]
    · simp [hc.2]
  · rw [if_neg hc, if_neg]
    rw [List.any_eq_true]
    rintro ⟨e, he, hee⟩
    have hmem : e ∈ db.rows ∧ e.synced = false := by
      simpa [ConnectionDatabase.get_unsynced_events] using he
    have hee' := (Bool.and_eq_true _ _).mp hee
    have hid : e.id = r.id := by simpa using hee'.1
    have heq : e = r := List.inj_on_of_nodup_map hnd hmem.1 hr hid
    refine hc ⟨?_, ?_⟩
    · rw [← heq]; exact hmem.2
    · rw [← hid]; exact hee'.2

/-! ## Claims -/

/-- C1: over every sequence of presence samples processed while
authenticated, a Connect event is emitted at position `i` iff the sample
changes from a non-target value (the absent initial sample included) to the
target SSID, a Disconnect event is emitted iff it changes from the target
SSID to a non-target value, and two identical consecutive samples emit no
event and cause no state change.  The disconnect branch is guarded by the
Python-truthy `if self.connection_start_time:` (`part3.py` 227), under
which a recorded start time of exactly `0.0` would suppress the event; the
hypothesis that the clock never reads exactly zero reflects `time.time()`,
which returns the strictly positive seconds since the epoch, so every
session start the code can record is truthy. -/
theorem monitor_connect_disconnect_iff (ctx : ProbeCtx)
    (hclock : ∀ n, ctx.clock n ≠ 0) (t : String)
    (samples : List Sample) :
    (∀ i : Nat,
      ((∃ ev, (monitorRun ctx (initialMonitor t) samples)[i]? = some (some ev) ∧
          ev.kind = EventKind.connect) ↔
        (samples[i]? = some (some t) ∧ prevSampleFrom none samples i ≠ some t)) ∧
      ((∃ ev, (monitorRun ctx (initialMonitor t) samples)[i]? = some (some ev) ∧
          ev.kind = EventKind.disconnect) ↔
        ((∃ s, samples[i]? = some s ∧ s ≠ some t) ∧
          prevSampleFrom none samples i = some t))) ∧
    (∀ (i : Nat) (s : Sample), samples[i]? = some s → samples[i + 1]? = some s →
      (monitorRun ctx (initialMonitor t) samples)[i + 1]? = some none ∧
      monitorFold ctx (initialMonitor t) (samples.take (i + 2)) =
        monitorFold ctx (initialMonitor t) (samples.take (i + 1))) := by
  refine ⟨fun i => ⟨?_, ?_⟩,
    fun i s h1 h2 => monitorRun_stutter ctx samples (initialMonitor t) i s h1 h2⟩
  · have h := monitorRun_connect_iff ctx samples (initialMonitor t) i
    simpa [initialMonitor] using h
  · have h := monitorRun_disconnect_iff ctx hclock samples (initialMonitor t)
      (startInv_initial t) i
    simpa [initialMonitor] using h

/-- Witness for C1 on the spec's Scenario A samples
`[none, "Home", "Target", "Target", "Other"]` with target `"Target"`:
a Connect at position 2, a Disconnect at position 4, and no event at
position 3 (the repeated sample). -/
theorem monitor_connect_disconnect_iff_witness :
    (∃ ev, (monitorRun runCtx (initialMonitor "Target")
        [none, some "Home", some "Target", some "Target", some "Other"])[2]? =
          some (some ev) ∧ ev.kind = EventKind.connect) ∧
    (∃ ev, (monitorRun runCtx (initialMonitor "Target")
        [none, some "Home", some "Target", some "Target", some "Other"])[4]? =
          some (some ev) ∧ ev.kind = EventKind.disconnect) ∧
    (monitorRun runCtx (initialMonitor "Target")
        [none, some "Home", some "Target", some "Target", some "Other"])[3]? =
      some none := by
  have hclock : ∀ n : Nat, runCtx.clock n ≠ 0 := by
    intro n
    show (n : Int) + 10 ≠ 0
    have h0 : (0 : Int) ≤ (n : Int) := Int.natCast_nonneg n
    omega
  refine ⟨?_, ?_, ?_⟩
  · exact ((monitor_connect_disconnect_iff runCtx hclock "Target"
      [none, some "Home", some "Target", some "Target", some "Other"]).1 2).1.mpr
      (by decide)
  · exact ((monitor_connect_disconnect_iff runCtx hclock "Target"
      [none, some "Home", some "Target", some "Target", some "Other"]).1 4).2.mpr
      ⟨⟨some "Other", rfl, by decide⟩, by decide⟩
  · exact ((monitor_connect_disconnect_iff runCtx hclock "Target"
      [none, some "Home", some "Target", some "Target", some "Other"]).2 2
      (some "Target") (by decide) (by decide)).1

/-- C4 counterexample: starting the process already associated with the
target (first observed sample = target SSID) DOES emit a Connect event —
the initial absent `last_ssid` differs from the target, so the connect
branch fires at the very first sample. -/
theorem preexisting_session_no_connect_cex :
    (monitorRun cexCtx (initialMonitor "Target") [some "Target"]).map
        (Option.map Event.kind) = [some EventKind.connect] := by
  decide

/-- C4 amended: if the first observed sample equals the target SSID, a
Connect event IS emitted for the pre-existing session at that first sample
(the missing previous sample behaves as a non-target value), so a later
Disconnect has a matching Connect. -/
theorem first_sample_target_emits_connect (ctx : ProbeCtx) (t : String)
    (rest : List Sample) :
    ∃ ev, (monitorRun ctx (initialMonitor t) (some t :: rest))[0]? =
        some (some ev) ∧ ev.kind = EventKind.connect := by
  refine (monitorRun_connect_iff ctx (some t :: rest) (initialMonitor t)
    0).mpr ⟨?_, ?_⟩
  · simp [initialMonitor]
  · simp [prevSampleFrom, initialMonitor]

/-- C6 counterexample: with the clock reading 10, 11, 12, 13, ...
(non-zero, so the Python-truthy start-time guard passes) the run over
`[some "Target", none]` emits a Disconnect whose recorded duration is 2
(computed from the clock reading at the transition, `12 - 10`) while
`timestamp - session_start` is `13 - 10 = 3` — the timestamp comes from a
later `time.time()` call, so the two are not exactly equal. -/
theorem disconnect_duration_exact_cex :
    (monitorRun runCtx (initialMonitor "Target") [some "Target", none]).map
        (Option.map (fun ev =>
          (ev.kind, ev.connection_duration,
            ev.timestamp - ev.connection_start_time))) =
      [some (EventKind.connect, none, 1),
        some (EventKind.disconnect, some 2, 3)] ∧
    some (2 : Int) ≠ some (3 : Int) := by
  decide

/-- C6 amended: on every Disconnect event the recorded duration equals the
clock reading taken at the moment of the transition minus the event's
`session_start`; the event's `timestamp` is the immediately following clock
reading, so under a monotone clock the duration is non-negative and
`session_start + duration ≤ timestamp` (with equality only when the two
readings coincide); the duration is computed once at the transition and the
stored event is never recomputed. -/
theorem disconnect_duration_from_transition (ctx : ProbeCtx)
    (hmono : ClockMono ctx.clock) (t : String) (samples : List Sample)
    (i : Nat) (ev : Event)
    (hev : (monitorRun ctx (initialMonitor t) samples)[i]? = some (some ev))
    (hk : ev.kind = EventKind.disconnect) :
    ∃ d j, ev.connection_duration = some d ∧
      d = ctx.clock j - ev.connection_start_time ∧
      ev.timestamp = ctx.clock (j + 1) ∧
      0 ≤ d ∧ ev.connection_start_time + d ≤ ev.timestamp :=
  monitorRun_disconnect_duration ctx hmono samples (initialMonitor t)
    (durInv_initial ctx t) i ev hev hk

/-- Witness for the amended C6 at the concrete run over
`[some "Target", none]` under the monotone clock 10, 11, 12, ... -/
theorem disconnect_duration_from_transition_witness :
    ∃ d j, c6Event.connection_duration = some d ∧
      d = runCtx.clock j - c6Event.connection_start_time ∧
      c6Event.timestamp = runCtx.clock (j + 1) ∧
      0 ≤ d ∧ c6Event.connection_start_time + d ≤ c6Event.timestamp := by
  have hmono : ClockMono runCtx.clock := by
    intro i j h
    show (i : Int) + 10 ≤ (j : Int) + 10
    have hij : (i : Int) ≤ (j : Int) := by exact_mod_cast h
    omega
  exact disconnect_duration_from_transition runCtx hmono "Target"
    [some "Target", none] 1 c6Event (by decide) rfl

/-- C2 counterexample: with an `api_client` attribute present (the normal
shape after `extend_app_authentication`), a Connect transition hands the
event to `ApiClient.track_connection` and writes nothing to the local Event
Store — the emitted event is not persisted to the store before the next
sample. -/
theorem event_persisted_to_store_cex :
    (processSample cexCtx c2App (some "Target")).api_calls.length = 1 ∧
    (processSample cexCtx c2App (some "Target")).offline_db.rows = [] := by
  decide

/-- C2 amended: an emitted event is written to the local Event Store only
when the app has no `api_client` attribute; when one is present the event
is handed to `ApiClient.track_connection` instead and the store is left
untouched. -/
theorem emitted_event_dispatch (ctx : ProbeCtx) (app : AppState) (s : Sample)
    (ev : Event) (h : (monitorStep ctx app.monitor s).2 = some ev) :
    (app.has_api_client = true →
      (processSample ctx app s).offline_db = app.offline_db ∧
      (processSample ctx app s).api_calls = app.api_calls ++ [ev]) ∧
    (app.has_api_client = false →
      (processSample ctx app s).api_calls = app.api_calls ∧
      (processSample ctx app s).offline_db =
        (app.offline_db.add_event (eventToData ev (app.user_email.getD ""))).1) := by
  constructor <;> intro hflag <;>
    simp [processSample, h, dispatchEvent, hflag]

/-- Witness for the amended C2: the concrete connect transition under
`c2App` (which has an api client) leaves the store unchanged and appends
the event to the api-call log. -/
theorem emitted_event_dispatch_witness :
    (processSample cexCtx c2App (some "Target")).offline_db = c2App.offline_db ∧
    (processSample cexCtx c2App (some "Target")).api_calls =
      c2App.api_calls ++ [c2Event] :=
  (emitted_event_dispatch cexCtx c2App (some "Target") c2Event (by decide)).1 rfl

/-- C3 counterexample: with three unsynced events (ids 1, 2, 3) and the
remote failing on id 2, one sync cycle submits all three events and marks
both 1 and 3 synced — it does not stop after the failure, so the synced set
is `[1, 3]`, not `[1]`, and id 3 was submitted in the same cycle. -/
theorem sync_stops_on_failure_cex :
    ((sync_offline_events remote3 app3).1.offline_db.rows.filter
        (fun r => r.synced)).map (fun r => r.id) = [1, 3] ∧
    (sync_offline_events remote3 app3).2 = [1, 2, 3] ∧
    ¬(((sync_offline_events remote3 app3).1.offline_db.rows.filter
        (fun r => r.synced)).map (fun r => r.id) = [1]) := by
  decide

/-- C3 amended: when delivery of an event fails, that event remains
unsynced, but the cycle goes on: every event of the fetched unsynced batch
is submitted, and each is marked synced according to its own outcome alone;
with three unsynced events and the remote failing on the second, events 1
and 3 become synced and only event 2 remains unsynced. -/
theorem sync_marks_each_by_own_outcome (remote : Nat → ApiResult)
    (app : AppState) (h1 : app.has_api_client = true)
    (h2 : app.access_token ≠ none)
    (hnd : (app.offline_db.rows.map (fun r => r.id)).Nodup) :
    (sync_offline_events remote app).2 =
      app.offline_db.get_unsynced_events.map (fun e => e.id) ∧
    (sync_offline_events remote app).1.offline_db.rows =
      app.offline_db.rows.map (fun r =>
        if r.synced = false ∧ trackSucceeds (remote r.id) = true then
          { r with synced := true }
        else r) := by
  rw [sync_offline_events_eq remote app h1 h2]
  refine ⟨rfl, ?_⟩
  exact List.map_congr_left
    (fun r hr => markIf_unsynced remote app.offline_db hnd r hr)

/-- Witness for the amended C3 at the three-event store with the remote
failing on id 2. -/
theorem sync_marks_each_by_own_outcome_witness :
    (sync_offline_events remote3 app3).2 =
      app3.offline_db.get_unsynced_events.map (fun e => e.id) ∧
    (sync_offline_events remote3 app3).1.offline_db.rows =
      app3.offline_db.rows.map (fun r =>
        if r.synced = false ∧ trackSucceeds (remote3 r.id) = true then
          { r with synced := true }
        else r) :=
  sync_marks_each_by_own_outcome remote3 app3 rfl (by decide) (by decide)

/-- C8: a stored event's `synced` flag is false at creation (`add_event`
inserts with the schema default), and a row can only flip to synced during
a sync cycle if its own delivery was acknowledged by an HTTP response whose
status is 2xx (the code requires exactly 200) with a success body — never
on a network error or non-success response. -/
theorem synced_false_at_creation_true_only_on_ack (db : ConnectionDatabase)
    (e : EventData) (remote : Nat → ApiResult) (app : AppState) (k : Nat)
    (r r' : EventRow) :
    (∃ row, (db.add_event e).1.rows = db.rows ++ [row] ∧
      row.synced = false ∧ row.id = db.nextId) ∧
    (app.offline_db.rows[k]? = some r →
      (sync_offline_events remote app).1.offline_db.rows[k]? = some r' →
      r'.synced = true →
      r.synced = true ∨
        ∃ status ok, remote r.id = ApiResult.response status ok ∧
          200 ≤ status ∧ status ≤ 299 ∧ ok = true) := by
  constructor
  · exact ⟨_, rfl, rfl, rfl⟩
  · intro hk hk' hs
    by_cases hgate : app.has_api_client = false ∨ app.access_token = none
    · rw [sync_offline_events_skip remote app hgate] at hk'
      rw [hk] at hk'
      injection hk' with hrr
      left
      rw [hrr]
      exact hs
    · have h1 : app.has_api_client = true := by
        have := (not_or.mp hgate).1
        simpa using this
      have h2 : app.access_token ≠ none := (not_or.mp hgate).2
      rw [sync_offline_events_eq remote app h1 h2] at hk'
      dsimp only at hk'
      rw [List.getElem?_map, hk, Option.map_some'] at hk'
      injection hk' with hr'
      unfold markIf at hr'
      by_cases hany : (app.offline_db.get_unsynced_events).any
          (fun e2 => e2.id == r.id && trackSucceeds (remote e2.id)) = true
      · right
        rw [List.any_eq_true] at hany
        obtain ⟨e2, _, hcond⟩ := hany
        have hcond' := (Bool.and_eq_true _ _).mp hcond
        have hid : e2.id = r.id := by simpa using hcond'.1
        have hsucc : trackSucceeds (remote r.id) = true := by
          rw [← hid]
          exact hcond'.2
        cases hrem : remote r.id with
        | netError =>
            rw [hrem] at hsucc
            simp [trackSucceeds] at hsucc
        | response st ok =>
            rw [hrem] at hsucc
            simp [trackSucceeds] at hsucc
            obtain ⟨h200, hok⟩ := hsucc
            exact ⟨st, ok, rfl, by omega, by omega, hok⟩
      · rw [if_neg hany] at hr'
        left
        rw [hr']
        exact hs

/-- Witness for C8: a freshly appended event is unsynced, and row 1 of the
three-event store became synced in the cycle because the remote answered
200 with a success body. -/
theorem synced_false_at_creation_true_only_on_ack_witness :
    (∃ row, ((ConnectionDatabase.empty.add_event
        (eventToData c2Event "user")).1.rows =
          ConnectionDatabase.empty.rows ++ [row]) ∧
      row.synced = false ∧ row.id = ConnectionDatabase.empty.nextId) ∧
    (row1.synced = true ∨
      ∃ status ok, remote3 row1.id = ApiResult.response status ok ∧
        200 ≤ status ∧ status ≤ 299 ∧ ok = true) := by
  have h := synced_false_at_creation_true_only_on_ack ConnectionDatabase.empty
    (eventToData c2Event "user") remote3 app3 0 row1 { row1 with synced := true }
  exact ⟨h.1, h.2 (by decide) (by decide) rfl⟩

/-- C5: `get_unsynced_events` returns exactly the rows whose `synced` flag
is false, as a sublist of the table in storage order; since rows are stored
in ascending-id (insertion) order, the result is in ascending `id` order. -/
theorem get_unsynced_exactly_and_ordered (db : ConnectionDatabase) :
    (∀ r : EventRow, r ∈ db.get_unsynced_events ↔
      r ∈ db.rows ∧ r.synced = false) ∧
    db.get_unsynced_events.Sublist db.rows ∧
    (List.Pairwise (fun a b : EventRow => a.id < b.id) db.rows →
      List.Pairwise (fun a b : EventRow => a.id < b.id)
        db.get_unsynced_events) := by
  refine ⟨fun r => ?_, List.filter_sublist _,
    fun h => h.sublist (List.filter_sublist _)⟩
  simp [ConnectionDatabase.get_unsynced_events, List.mem_filter]

/-- Witness for C5 at the three-event store, whose ids 1, 2, 3 are in
ascending order. -/
theorem get_unsynced_exactly_and_ordered_witness :
    (∀ r : EventRow, r ∈ db3.get_unsynced_events ↔
      r ∈ db3.rows ∧ r.synced = false) ∧
    db3.get_unsynced_events.Sublist db3.rows ∧
    List.Pairwise (fun a b : EventRow => a.id < b.id)
      db3.get_unsynced_events := by
  obtain ⟨h1, h2, h3⟩ := get_unsynced_exactly_and_ordered db3
  exact ⟨h1, h2, h3 (by decide)⟩

/-- C7: `mark_as_synced` is idempotent — marking the same id twice yields
the same store as marking it once, and marking an id not present in the
store leaves it unchanged (total function: it completes without error). -/
theorem mark_as_synced_idempotent (db : ConnectionDatabase) (i : Nat) :
    (db.mark_as_synced i).mark_as_synced i = db.mark_as_synced i ∧
    ((∀ r ∈ db.rows, r.id ≠ i) → db.mark_as_synced i = db) :=
  ⟨mark_as_synced_idem db i, mark_as_synced_noop db i⟩

/-- Witness for C7: marking the absent id 99 twice on the three-event store
is the same as marking it once, and is a no-op. -/
theorem mark_as_synced_idempotent_witness :
    (db3.mark_as_synced 99).mark_as_synced 99 = db3.mark_as_synced 99 ∧
    db3.mark_as_synced 99 = db3 := by
  obtain ⟨h1, h2⟩ := mark_as_synced_idempotent db3 99
  exact ⟨h1, h2 (by decide)⟩

/-- C9: `mark_as_synced id` preserves the row count and the id counter;
positionally, a row whose `id` differs from the argument is returned
verbatim, and a matching row changes only its `synced` column; with the
primary-key uniqueness of `id`, at most one row matches. -/
theorem mark_as_synced_frame (db : ConnectionDatabase) (i : Nat) :
    (db.mark_as_synced i).rows.length = db.rows.length ∧
    (db.mark_as_synced i).nextId = db.nextId ∧
    (∀ (k : Nat) (r : EventRow), db.rows[k]? = some r →
      (db.mark_as_synced i).rows[k]? =
        some (if r.id = i then { r with synced := true } else r)) ∧
    ((db.rows.map (fun r => r.id)).Nodup →
      db.rows.countP (fun r => r.id == i) ≤ 1) := by
  refine ⟨mark_as_synced_length db i, mark_as_synced_nextId db i,
    fun k r hk => mark_as_synced_getElem db i k r hk, fun hnd => ?_⟩
  have hcount := List.nodup_iff_count_le_one.mp hnd i
  simpa [List.count, List.countP_map, Function.comp] using hcount

/-- Witness for C9 at the three-event store with id 2: rows 0 and 2 are
untouched, row 1 changes only its `synced` column. -/
theorem mark_as_synced_frame_witness :
    (db3.mark_as_synced 2).rows.length = db3.rows.length ∧
    (db3.mark_as_synced 2).nextId = db3.nextId ∧
    (db3.mark_as_synced 2).rows[0]? = some row1 ∧
    (db3.mark_as_synced 2).rows[1]? = some { row2 with synced := true } ∧
    db3.rows.countP (fun r => r.id == 2) ≤ 1 := by
  obtain ⟨h1, h2, h3, h4⟩ := mark_as_synced_frame db3 2
  refine ⟨h1, h2, ?_, ?_, h4 (by decide)⟩
  · have h := h3 0 row1 (by decide)
    rw [if_neg (by decide)] at h
    exact h
  · have h := h3 1 row2 (by decide)
    rw [if_pos (by decide)] at h
    exact h

/-- C10: when the platform probe of `ApiClient.get_current_ssid` fails with
a caught error (`probe = none`) or no output line matches the platform's
pattern, the function returns the configured target SSID rather than an
absence value, so a login payload built during probe failure reports the
target network as the current one. -/
theorem probe_failure_login_reports_target (platform : Platform)
    (target : String) (probe : Option (List String))
    (email password macAddress : String)
    (h : probe = none ∨ ∃ lines, probe = some lines ∧
        lines.find? (lineMatches platform) = none) :
    ApiClient_get_current_ssid platform target probe = target ∧
    (ApiClient_login_payload platform target probe
        email password macAddress).ssid = target := by
  have hs : ApiClient_get_current_ssid platform target probe = target := by
    rcases h with h | ⟨lines, hp, hf⟩
    · rw [h]
      rfl
    · rw [hp]
      unfold ApiClient_get_current_ssid
      dsimp only
      rw [hf]
  exact ⟨hs, hs⟩

/-- Witness for C10: a failed probe during login reports the configured
default target `"SSAA323"`. -/
theorem probe_failure_login_reports_target_witness :
    ApiClient_get_current_ssid Platform.linux "SSAA323" none = "SSAA323" ∧
    (ApiClient_login_payload Platform.linux "SSAA323" none
        "user" "pw" "aa:bb").ssid = "SSAA323" :=
  probe_failure_login_reports_target Platform.linux "SSAA323" none
    "user" "pw" "aa:bb" (Or.inl rfl)
